import Mathlib

/-!
Verification development for the math-worksheet-vue quiz client.

The definitions below are a shallow embedding of the client activation and
data-synchronization gate of the repository.  The main component
(src/src/App.vue) is embedded in the namespace MathWorksheet; the earlier
iteration that carries the interaction accumulator (the variant with
checkRealUserInteraction and trusted-event listeners) is embedded in the
namespace Part001.  Asynchronous network operations are modelled atomically:
each operation takes the outcome the network would deliver as an explicit
oracle argument and returns the updated application state together with the
list of network calls it issued.
-/

set_option maxHeartbeats 1000000

namespace MathWorksheet

/-- Browser environment signals consulted by the bot heuristic of App.vue:
the user agent string, the navigator.webdriver flag (absent, false or true),
and the two phantom globals (window.callPhantom, the phantom marker). -/
structure Env where
  userAgent : String
  webdriver : Option Bool
  callPhantom : Bool
  phantomGlobal : Bool
deriving DecidableEq

/-- JavaScript String.prototype.includes, on the character lists. -/
def strIncludes (s pat : String) : Bool :=
  decide (pat.data <:+: s.data)

/-- ASCII lowercasing of one character, as String.prototype.toLowerCase acts
on the ASCII range the bot vocabulary lives in. -/
def lowerChar (c : Char) : Char :=
  if 65 ≤ c.toNat ∧ c.toNat ≤ 90 then Char.ofNat (c.toNat + 32) else c

/-- JavaScript String.prototype.toLowerCase. -/
def lowerStr (s : String) : String :=
  ⟨s.data.map lowerChar⟩

/-- JavaScript String.prototype.trim: whitespace stripped from both ends. -/
def jsTrim (s : String) : String :=
  ⟨((s.data.dropWhile Char.isWhitespace).reverse.dropWhile
      Char.isWhitespace).reverse⟩

/-- Bot heuristic of App.vue (function isBot, lines 37-81): rejection words in
the lowercased user agent, navigator.webdriver strictly equal to true, or a
phantom global present. -/
def isBot (env : Env) : Bool :=
  let ua := lowerStr env.userAgent
  strIncludes ua "bot" ||
  strIncludes ua "crawler" ||
  strIncludes ua "spider" ||
  strIncludes ua "scraper" ||
  strIncludes ua "headless" ||
  env.webdriver == some true ||
  env.callPhantom ||
  env.phantomGlobal

/-- One multiple-choice question as delivered by the questions endpoint. -/
structure Question where
  id : String
  question : String
  choices : List String
deriving DecidableEq

/-- One leaderboard entry as delivered by the scores endpoint. -/
structure ScoreEntry where
  name : String
  score : Int
deriving DecidableEq

/-- The reactive state of the App.vue component.  The answer map is kept as an
association list with unique keys in insertion order, mirroring a plain
JavaScript object. -/
structure AppState where
  questions : List Question
  userAnswers : List (String × String)
  userName : String
  score : Option Int
  message : String
  highScores : List ScoreEntry
  isLoading : Bool
  isSubmitting : Bool
  dataLoaded : Bool
  backendAvailable : Bool
  criticalError : Bool
  hasRealUser : Bool
  quizStarted : Bool
  honeypot : String
  lastApiCall : Nat
deriving DecidableEq

/-- Initial state of the component, from the ref initializers of App.vue. -/
def initialState : AppState :=
  { questions := []
    userAnswers := []
    userName := ""
    score := none
    message := ""
    highScores := []
    isLoading := false
    isSubmitting := false
    dataLoaded := false
    backendAvailable := true
    criticalError := false
    hasRealUser := false
    quizStarted := false
    honeypot := ""
    lastApiCall := 0 }

/-- A network call issued by the component: the two reads and the one write. -/
inductive NetCall where
  | getQuestions
  | getScores
  | postScores (name : String) (answers : List (String × String))
deriving DecidableEq

/-- An axios failure: the error code (ECONNABORTED for a timeout) and the
optional HTTP status of the response, when one was received. -/
structure AxiosError where
  code : Option String
  status : Option Nat
deriving DecidableEq

/-- Outcome of a single GET, delivered by the network oracle. -/
inductive FetchOutcome (α : Type) where
  | success (data : α)
  | failure (err : AxiosError)
deriving DecidableEq

/-- Body of a successful POST response: the graded score, the server message,
and the optionally embedded fresh leaderboard. -/
structure SubmitResponse where
  score : Int
  message : String
  highScores : Option (List ScoreEntry)
deriving DecidableEq

/-- Outcome of the submission POST, delivered by the network oracle. -/
inductive SubmitOutcome where
  | success (resp : SubmitResponse)
  | failure (err : AxiosError)
deriving DecidableEq

/-- Error classification of App.vue (lines 268 and 320): a timeout or an HTTP
status of at least 500. -/
def isTimeoutOr5xx (err : AxiosError) : Bool :=
  err.code == some "ECONNABORTED" ||
  (match err.status with
   | some st => decide (st ≥ 500)
   | none => false)

def backendUnavailableLoadMsg : String :=
  "Backend service is unavailable. Please refresh the page or try again later."

def serviceUnavailableSubmitMsg : String :=
  "Service is currently unavailable. Please refresh the page and try again."

def enterNameMsg : String :=
  "Please enter your name before submitting."

def nameLengthMsg : String :=
  "Name must be between 2 and 50 characters."

/-- Completeness-failure message of App.vue line 238, citing the question
total and the answered count. -/
def completenessMessage (total answered : Nat) : String :=
  "Please answer all " ++ toString total ++
  " questions. You\u0027ve answered " ++ toString answered ++ "."

def backendUnavailableSubmitMsg : String :=
  "Backend service is unavailable. Please refresh the page to try again."

def submitFailedMsg : String :=
  "Failed to submit score. Please try again."

def serviceUnavailableRefreshMsg : String :=
  "Service is currently unavailable. Please refresh the page to try again."

def refreshFailedMsg : String :=
  "Failed to refresh high scores."

/-- Data loading of App.vue (function loadInitialData, lines 112-187).  The
two parallel GETs settle independently; the oracle supplies both outcomes.
The isLoading flag is set and cleared within the operation, so its net effect
is preserved by the atomic model. -/
def loadInitialData (env : Env) (now : Nat)
    (qOut : FetchOutcome (List Question))
    (sOut : FetchOutcome (List ScoreEntry))
    (s : AppState) : AppState × List NetCall :=
  if s.dataLoaded || s.isLoading then (s, [])
  else if s.quizStarted = false then (s, [])
  else if isBot env then (s, [])
  else if s.hasRealUser = false then (s, [])
  else if now - s.lastApiCall < 10000 then (s, [])
  else
    let s1 := { s with lastApiCall := now }
    let s2 :=
      match qOut with
      | .success d => { s1 with questions := d, backendAvailable := true }
      | .failure _ =>
          { s1 with backendAvailable := false, criticalError := true,
                    message := backendUnavailableLoadMsg }
    let s3 :=
      match sOut with
      | .success d => { s2 with highScores := d }
      | .failure _ => { s2 with highScores := [] }
    ({ s3 with dataLoaded := true }, [NetCall.getQuestions, NetCall.getScores])

/-- App activation of App.vue (function activateApp, lines 86-107): bot and
honeypot checks, then the one-shot unlock and the initial data load. -/
def activateApp (env : Env) (now : Nat)
    (qOut : FetchOutcome (List Question))
    (sOut : FetchOutcome (List ScoreEntry))
    (s : AppState) : AppState × List NetCall :=
  if isBot env then (s, [])
  else if s.honeypot ≠ "" then (s, [])
  else
    loadInitialData env now qOut sOut
      { s with hasRealUser := true, quizStarted := true }

/-- Post-validation part of calculateScore (the try/catch block of App.vue,
lines 244-277): the POST is issued carrying the trimmed name and the full
answer map, then the response or error is interpreted. -/
def performSubmit (outcome : SubmitOutcome) (trimmedName : String)
    (s : AppState) : AppState × List NetCall :=
  match outcome with
  | .success resp =>
      let s1 := { s with score := some resp.score, message := resp.message }
      let s2 :=
        match resp.highScores with
        | some hs => { s1 with highScores := hs }
        | none => s1
      ({ s2 with userAnswers := [], userName := "" },
        [NetCall.postScores trimmedName s.userAnswers])
  | .failure err =>
      if isTimeoutOr5xx err then
        ({ s with backendAvailable := false, criticalError := true,
                  message := backendUnavailableSubmitMsg },
          [NetCall.postScores trimmedName s.userAnswers])
      else
        ({ s with message := submitFailedMsg },
          [NetCall.postScores trimmedName s.userAnswers])

/-- Submission of App.vue (function calculateScore, lines 192-278): the
re-entrancy guard, the gate checks, the user-visible validations in source
order, then the POST.  The isSubmitting flag is set and cleared within the
operation, so its net effect is preserved by the atomic model. -/
def calculateScore (env : Env) (outcome : SubmitOutcome)
    (s : AppState) : AppState × List NetCall :=
  if s.isSubmitting then (s, [])
  else if s.quizStarted = false then (s, [])
  else if isBot env then (s, [])
  else if s.honeypot ≠ "" then (s, [])
  else if s.hasRealUser = false then (s, [])
  else if s.backendAvailable = false then
    ({ s with message := serviceUnavailableSubmitMsg }, [])
  else if jsTrim s.userName = "" then
    ({ s with message := enterNameMsg }, [])
  else if (jsTrim s.userName).length < 2 ∨ (jsTrim s.userName).length > 50 then
    ({ s with message := nameLengthMsg }, [])
  else if s.userAnswers.length < s.questions.length then
    ({ s with message :=
        completenessMessage s.questions.length s.userAnswers.length }, [])
  else
    performSubmit outcome (jsTrim s.userName) s

/-- Reset of App.vue (function resetWorksheet, lines 283-288). -/
def resetWorksheet (s : AppState) : AppState :=
  { s with userName := "", score := none, message := "", userAnswers := [] }

/-- Manual leaderboard refresh of App.vue (function refreshHighScores, lines
290-327): gate checks, then an unconditionally issued GET whose failure is
classified exactly like a submission failure, except that criticalError is
never set. -/
def refreshHighScores (env : Env) (outcome : FetchOutcome (List ScoreEntry))
    (s : AppState) : AppState × List NetCall :=
  if s.quizStarted = false then (s, [])
  else if isBot env then (s, [])
  else if s.hasRealUser = false then (s, [])
  else if s.backendAvailable = false then
    ({ s with message := serviceUnavailableRefreshMsg }, [])
  else
    match outcome with
    | .success d => ({ s with highScores := d }, [NetCall.getScores])
    | .failure err =>
        if isTimeoutOr5xx err then
          ({ s with backendAvailable := false,
                    message := backendUnavailableSubmitMsg },
            [NetCall.getScores])
        else
          ({ s with message := refreshFailedMsg }, [NetCall.getScores])

/-- The answer-selection write path of the template: assigning
userAnswers[questionId] = choice overwrites an existing key in place and
otherwise appends. -/
def setAnswer (m : List (String × String)) (q c : String) :
    List (String × String) :=
  if m.any (fun p => p.1 == q) then
    m.map (fun p => if p.1 == q then (p.1, c) else p)
  else
    m ++ [(q, c)]

/-- One user action in a session.  Actions that start an asynchronous
operation carry the oracle outcomes that operation would observe. -/
inductive Action where
  | clickStart (now : Nat) (qOut : FetchOutcome (List Question))
      (sOut : FetchOutcome (List ScoreEntry))
  | loadData (now : Nat) (qOut : FetchOutcome (List Question))
      (sOut : FetchOutcome (List ScoreEntry))
  | submit (outcome : SubmitOutcome)
  | refresh (outcome : FetchOutcome (List ScoreEntry))
  | reset
  | setName (n : String)
  | fillHoneypot (h : String)
  | selectAnswer (q c : String)
  | clearMessage
deriving DecidableEq

/-- Dispatch of one action against the component. -/
def step (env : Env) (s : AppState) (a : Action) : AppState × List NetCall :=
  match a with
  | .clickStart now qOut sOut => activateApp env now qOut sOut s
  | .loadData now qOut sOut => loadInitialData env now qOut sOut s
  | .submit outcome => calculateScore env outcome s
  | .refresh outcome => refreshHighScores env outcome s
  | .reset => (resetWorksheet s, [])
  | .setName n => ({ s with userName := n }, [])
  | .fillHoneypot h => ({ s with honeypot := h }, [])
  | .selectAnswer q c => ({ s with userAnswers := setAnswer s.userAnswers q c }, [])
  | .clearMessage => ({ s with message := "" }, [])

/-- A whole session: the actions in order, with every issued network call
collected. -/
def run (env : Env) (s : AppState) : List Action → AppState × List NetCall
  | [] => (s, [])
  | a :: rest =>
      let r := step env s a
      let r2 := run env r.1 rest
      (r2.1, r.2 ++ r2.2)

end MathWorksheet

namespace Part001

/-- Browser environment signals consulted by the interaction-accumulator
variant: the user agent, whether navigator.webdriver is defined at all, the
phantom globals, the honeypot field value, and whether the window and
document objects look like a proper browser (innerHeight and innerWidth
truthy). -/
structure EnvP where
  userAgent : String
  webdriverDefined : Bool
  callPhantom : Bool
  phantomGlobal : Bool
  honeypot : String
  windowValid : Bool
deriving DecidableEq

/-- Bot heuristic of the accumulator variant (its isBot, lines 10-20):
rejection words in the lowercased user agent, navigator.webdriver defined,
or a phantom global present. -/
def isBotP (env : EnvP) : Bool :=
  MathWorksheet.strIncludes (MathWorksheet.lowerStr env.userAgent) "bot" ||
  MathWorksheet.strIncludes (MathWorksheet.lowerStr env.userAgent) "crawler" ||
  MathWorksheet.strIncludes (MathWorksheet.lowerStr env.userAgent) "spider" ||
  MathWorksheet.strIncludes (MathWorksheet.lowerStr env.userAgent) "scraper" ||
  MathWorksheet.strIncludes (MathWorksheet.lowerStr env.userAgent) "headless" ||
  env.webdriverDefined ||
  env.callPhantom ||
  env.phantomGlobal

/-- The event vocabulary the accumulator listens to (its
addInteractionListeners, lines 303-319). -/
inductive EventType where
  | click
  | keydown
  | mousemove
  | mousedown
  | touchstart
deriving DecidableEq

/-- A DOM event as seen by a listener: its type and its trusted-origin
marker. -/
structure Event where
  type : EventType
  isTrusted : Bool
deriving DecidableEq

/-- The accumulator state: the module-level counters interactionCount,
hasMouseMoved and hasClicked, together with the hasRealUser ref the
confirmation sets. -/
structure AccState where
  interactionCount : Nat
  hasMouseMoved : Bool
  hasClicked : Bool
  hasRealUser : Bool
deriving DecidableEq

/-- Accumulator state at page load. -/
def accInit : AccState :=
  { interactionCount := 0
    hasMouseMoved := false
    hasClicked := false
    hasRealUser := false }

/-- Unlock path of the accumulator variant (its detectUserInteraction, lines
244-275): already-detected short circuit, bot check, honeypot check, browser
environment check, then the unlock.  The data load and the listener removal
it triggers are outside the accumulator and not modelled here. -/
def detectUserInteraction (env : EnvP) (st : AccState) : AccState :=
  if st.hasRealUser then st
  else if isBotP env then st
  else if env.honeypot ≠ "" then st
  else if env.windowValid = false then st
  else { st with hasRealUser := true }

/-- One accumulator step (its checkRealUserInteraction, lines 283-301):
count the event, record movement and click witnesses, then fire the
confirmation when movement has been seen, a click has been seen or the
current event is a key press, and at least three events have been counted.
Returns the new state and whether the confirmation fired. -/
def checkRealUserInteraction (env : EnvP) (t : EventType)
    (st : AccState) : AccState × Bool :=
  let count := st.interactionCount + 1
  let moved := st.hasMouseMoved || t == EventType.mousemove
  let clicked := st.hasClicked || t == EventType.click
  let fired := moved && (clicked || t == EventType.keydown) && decide (count ≥ 3)
  let st1 := { st with interactionCount := count, hasMouseMoved := moved,
                       hasClicked := clicked }
  if fired then (detectUserInteraction env st1, true) else (st1, false)

/-- One listener invocation (the listener closure of
addInteractionListeners): a programmatically dispatched event, whose
isTrusted marker is false, is skipped before checkRealUserInteraction is
reached.  The Bool records whether checkRealUserInteraction was invoked. -/
def listenerStep (env : EnvP) (st : AccState) (e : Event) :
    AccState × Bool :=
  if e.isTrusted = false then (st, false)
  else ((checkRealUserInteraction env e.type st).1, true)

/-- A whole event sequence through the listeners, counting how many times
checkRealUserInteraction was invoked. -/
def processEvents (env : EnvP) (st : AccState) :
    List Event → AccState × Nat
  | [] => (st, 0)
  | e :: rest =>
      let r := listenerStep env st e
      let r2 := processEvents env r.1 rest
      (r2.1, (if r.2 then 1 else 0) + r2.2)

/-- Folding a sequence of trusted events through the accumulator steps. -/
def foldCheck (env : EnvP) (st : AccState) (ts : List EventType) : AccState :=
  ts.foldl (fun s t => (checkRealUserInteraction env t s).1) st

/-- Whether any step of a trusted event-type sequence fires the
confirmation. -/
def anyFired (env : EnvP) (st : AccState) : List EventType → Bool
  | [] => false
  | t :: rest =>
      let r := checkRealUserInteraction env t st
      r.2 || anyFired env r.1 rest

/-- Whether an event of the given type occurs in a sequence; the per-event
comparison is the one the accumulator performs on the current event. -/
def seenType (ts : List EventType) (t : EventType) : Bool :=
  ts.any (fun x => x == t)

/-- A benign browser environment for the accumulator variant: an ordinary
user agent, no automation markers, empty honeypot, a real window. -/
def benignEnvP : EnvP :=
  { userAgent := "Mozilla/5.0 (X11; Linux) Firefox/115.0"
    webdriverDefined := false
    callPhantom := false
    phantomGlobal := false
    honeypot := ""
    windowValid := true }

/-- A sequence of programmatically dispatched events: every trusted-origin
marker is false. -/
def untrustedEvs : List Event :=
  [{ type := EventType.click, isTrusted := false },
   { type := EventType.mousemove, isTrusted := false },
   { type := EventType.mousemove, isTrusted := false },
   { type := EventType.keydown, isTrusted := false }]

end Part001

namespace MathWorksheet

/-- A crawler environment: the user agent carries a rejection word. -/
def botEnv : Env :=
  { userAgent := "Googlebot/2.1 (+http://www.google.com/bot.html)"
    webdriver := none
    callPhantom := false
    phantomGlobal := false }

/-- An ordinary browser environment: no bot signal matches. -/
def okEnv : Env :=
  { userAgent := "Mozilla/5.0 (X11; Linux) Firefox/115.0"
    webdriver := some false
    callPhantom := false
    phantomGlobal := false }

/-- A sample session: the start click, some typing and answering, a
submission and a manual refresh, with benign oracle outcomes. -/
def demoActs : List Action :=
  [Action.clickStart 0 (FetchOutcome.success []) (FetchOutcome.success []),
   Action.setName "Alice",
   Action.selectAnswer "q1" "20",
   Action.submit (SubmitOutcome.success
     { score := 10, message := "ok", highScores := none }),
   Action.refresh (FetchOutcome.success []),
   Action.loadData 20000 (FetchOutcome.success []) (FetchOutcome.success [])]

/-- A state in which the initial load has completed: quiz started, human
confirmed, data loaded, leaderboard populated. -/
def loadedState : AppState :=
  { initialState with
      quizStarted := true
      hasRealUser := true
      dataLoaded := true
      highScores := [{ name := "Alice", score := 5 }] }

/-- A timeout failure (the axios ECONNABORTED code, no response). -/
def errTimeout : AxiosError := { code := some "ECONNABORTED", status := none }

/-- A client-side HTTP failure (status 404, no timeout). -/
def err404 : AxiosError := { code := none, status := some 404 }

/-- A server-side HTTP failure (status 503). -/
def err503 : AxiosError := { code := none, status := some 503 }

/-- A twelve-question set, shaped like the rounding worksheet. -/
def q12 : List Question :=
  [{ id := "q1", question := "17", choices := ["10", "20", "17"] },
   { id := "q2", question := "75", choices := ["70", "80", "75"] },
   { id := "q3", question := "64", choices := ["64", "70", "60"] },
   { id := "q4", question := "98", choices := ["80", "100", "98"] },
   { id := "q5", question := "94", choices := ["100", "94", "90"] },
   { id := "q6", question := "445", choices := ["450", "440", "500"] },
   { id := "q7", question := "45", choices := ["50", "45", "40"] },
   { id := "q8", question := "19", choices := ["20", "10", "19"] },
   { id := "q9", question := "0", choices := ["10", "1", "0"] },
   { id := "q10", question := "199", choices := ["190", "100", "200"] },
   { id := "q11", question := "165", choices := ["160", "170", "150"] },
   { id := "q12", question := "999", choices := ["990", "1000", "909"] }]

/-- Seven answers against the twelve-question set. -/
def answers7 : List (String × String) :=
  [("q1", "20"), ("q2", "80"), ("q3", "60"), ("q4", "100"),
   ("q5", "90"), ("q6", "450"), ("q7", "50")]

/-- Twelve answers against the twelve-question set. -/
def answers12 : List (String × String) :=
  [("q1", "20"), ("q2", "80"), ("q3", "60"), ("q4", "100"),
   ("q5", "90"), ("q6", "450"), ("q7", "50"), ("q8", "20"),
   ("q9", "0"), ("q10", "200"), ("q11", "170"), ("q12", "1000")]

/-- An activated session with a valid name and seven of twelve answers. -/
def submitReady7 : AppState :=
  { initialState with
      questions := q12
      userAnswers := answers7
      userName := "Alice"
      quizStarted := true
      hasRealUser := true
      dataLoaded := true }

/-- An activated session with a valid name and all twelve answers. -/
def submitReady12 : AppState :=
  { submitReady7 with userAnswers := answers12 }

/-- An activated one-question session whose single answer value is the empty
string, with a valid name. -/
def emptyAnswerState : AppState :=
  { initialState with
      questions := [{ id := "q1", question := "17",
                      choices := ["10", "20", "17"] }]
      userAnswers := [("q1", "")]
      userName := "Al"
      quizStarted := true
      hasRealUser := true
      dataLoaded := true }

/-- A freshly activated session: quiz started and human confirmed, nothing
loaded yet. -/
def freshStarted : AppState :=
  { initialState with quizStarted := true, hasRealUser := true }

/-- A graded response embedding a fresh leaderboard. -/
def respWithScores : SubmitResponse :=
  { score := 11, message := "Great job!",
    highScores := some [{ name := "Alice", score := 11 },
                        { name := "Bob", score := 9 }] }

end MathWorksheet

namespace MathWorksheet

lemma loadInitialData_notStarted (env : Env) (now : Nat)
    (qOut : FetchOutcome (List Question)) (sOut : FetchOutcome (List ScoreEntry))
    (s : AppState) (hq : s.quizStarted = false) :
    loadInitialData env now qOut sOut s = (s, []) := by
  simp [loadInitialData, hq]

lemma calculateScore_notStarted (env : Env) (outcome : SubmitOutcome)
    (s : AppState) (hq : s.quizStarted = false) :
    calculateScore env outcome s = (s, []) := by
  simp [calculateScore, hq]

lemma refreshHighScores_notStarted (env : Env)
    (outcome : FetchOutcome (List ScoreEntry)) (s : AppState)
    (hq : s.quizStarted = false) :
    refreshHighScores env outcome s = (s, []) := by
  simp [refreshHighScores, hq]

lemma activateApp_bot (env : Env) (now : Nat)
    (qOut : FetchOutcome (List Question)) (sOut : FetchOutcome (List ScoreEntry))
    (s : AppState) (hb : isBot env = true) :
    activateApp env now qOut sOut s = (s, []) := by
  simp [activateApp, hb]

lemma step_locked (env : Env) (hb : isBot env = true) (s : AppState)
    (a : Action) (hq : s.quizStarted = false) (hr : s.hasRealUser = false) :
    (step env s a).1.quizStarted = false ∧
    (step env s a).1.hasRealUser = false ∧
    (step env s a).2 = [] := by
  cases a <;>
    simp [step, resetWorksheet, hq, hr, hb, activateApp_bot,
      loadInitialData_notStarted, calculateScore_notStarted,
      refreshHighScores_notStarted]

lemma run_locked (env : Env) (hb : isBot env = true) :
    ∀ (acts : List Action) (s : AppState),
      s.quizStarted = false → s.hasRealUser = false →
      (run env s acts).1.quizStarted = false ∧
      (run env s acts).1.hasRealUser = false ∧
      (run env s acts).2 = []
  | [], s, hq, _ => by simp [run, hq, *]
  | a :: rest, s, hq, hr => by
      have h1 := step_locked env hb s a hq hr
      have h2 := run_locked env hb rest (step env s a).1 h1.1 h1.2.1
      simp only [run]
      exact ⟨h2.1, h2.2.1, by simp [h1.2.2, h2.2.2]⟩

/-- C1: in every environment matching a bot signal of the heuristic (a
rejection word in the user agent, the webdriver flag, or a phantom global),
the activation gate never unlocks over any sequence of user actions —
hasRealUser and quizStarted stay false — and no network call (questions
fetch, scores fetch, or submission post) is ever issued. -/
theorem bot_env_gate_never_unlocks (env : Env) (h : isBot env = true)
    (acts : List Action) :
    (run env initialState acts).1.hasRealUser = false ∧
    (run env initialState acts).1.quizStarted = false ∧
    (run env initialState acts).2 = [] := by
  have hrun := run_locked env h acts initialState rfl rfl
  exact ⟨hrun.2.1, hrun.1, hrun.2.2⟩

/-- Witness for C1: a crawler user agent, a concrete session that clicks
Start Quiz, answers, submits and refreshes — nothing unlocks and nothing is
sent. -/
theorem bot_env_gate_never_unlocks_witness :
    isBot botEnv = true ∧
    (run botEnv initialState demoActs).1.hasRealUser = false ∧
    (run botEnv initialState demoActs).1.quizStarted = false ∧
    (run botEnv initialState demoActs).2 = [] :=
  ⟨by decide, bot_env_gate_never_unlocks botEnv (by decide) demoActs⟩

end MathWorksheet

namespace Part001

lemma processEvents_untrusted (env : EnvP) :
    ∀ (evs : List Event) (st : AccState),
      (∀ e ∈ evs, e.isTrusted = false) → processEvents env st evs = (st, 0)
  | [], _, _ => rfl
  | e :: rest, st, h => by
      have he : e.isTrusted = false := h e (by simp)
      have hr := processEvents_untrusted env rest st
        (fun x hx => h x (by simp [hx]))
      simp [processEvents, listenerStep, he, hr]

/-- C2: a sequence of programmatically dispatched events — every
trusted-origin marker false — never moves the accumulator:
checkRealUserInteraction is invoked zero times, the whole state is
unchanged, and hasRealUser stays false. -/
theorem untrusted_events_never_confirm (env : EnvP) (evs : List Event)
    (h : ∀ e ∈ evs, e.isTrusted = false) :
    processEvents env accInit evs = (accInit, 0) ∧
    (processEvents env accInit evs).1.hasRealUser = false := by
  have hp := processEvents_untrusted env evs accInit h
  exact ⟨hp, by rw [hp]; rfl⟩

/-- Witness for C2: four concrete untrusted events of the listened-to types
leave the accumulator untouched. -/
theorem untrusted_events_never_confirm_witness :
    processEvents benignEnvP accInit untrustedEvs = (accInit, 0) ∧
    (processEvents benignEnvP accInit untrustedEvs).1.hasRealUser = false :=
  untrusted_events_never_confirm benignEnvP untrustedEvs (by decide)

lemma detect_count (env : EnvP) (st : AccState) :
    (detectUserInteraction env st).interactionCount = st.interactionCount := by
  unfold detectUserInteraction
  split_ifs <;> rfl

lemma detect_moved (env : EnvP) (st : AccState) :
    (detectUserInteraction env st).hasMouseMoved = st.hasMouseMoved := by
  unfold detectUserInteraction
  split_ifs <;> rfl

lemma detect_clicked (env : EnvP) (st : AccState) :
    (detectUserInteraction env st).hasClicked = st.hasClicked := by
  unfold detectUserInteraction
  split_ifs <;> rfl

lemma check_count (env : EnvP) (t : EventType) (st : AccState) :
    (checkRealUserInteraction env t st).1.interactionCount =
      st.interactionCount + 1 := by
  simp only [checkRealUserInteraction]
  split
  · rw [detect_count]
  · rfl

lemma check_moved (env : EnvP) (t : EventType) (st : AccState) :
    (checkRealUserInteraction env t st).1.hasMouseMoved =
      (st.hasMouseMoved || t == EventType.mousemove) := by
  simp only [checkRealUserInteraction]
  split
  · rw [detect_moved]
  · rfl

lemma check_clicked (env : EnvP) (t : EventType) (st : AccState) :
    (checkRealUserInteraction env t st).1.hasClicked =
      (st.hasClicked || t == EventType.click) := by
  simp only [checkRealUserInteraction]
  split
  · rw [detect_clicked]
  · rfl

lemma check_fired (env : EnvP) (t : EventType) (st : AccState) :
    (checkRealUserInteraction env t st).2 =
      ((st.hasMouseMoved || t == EventType.mousemove) &&
       ((st.hasClicked || t == EventType.click) ||
         t == EventType.keydown) &&
       decide (st.interactionCount + 1 ≥ 3)) := by
  simp only [checkRealUserInteraction]
  split
  next h => exact h.symm
  next h => simp only [Bool.not_eq_true] at h; exact h.symm

lemma foldCheck_count (env : EnvP) :
    ∀ (ts : List EventType) (st : AccState),
      (foldCheck env st ts).interactionCount =
        st.interactionCount + ts.length
  | [], st => by simp [foldCheck]
  | t :: rest, st => by
      have hr := foldCheck_count env rest (checkRealUserInteraction env t st).1
      simp only [foldCheck, List.foldl_cons, List.length_cons] at hr ⊢
      rw [hr, check_count]
      omega

lemma foldCheck_moved (env : EnvP) :
    ∀ (ts : List EventType) (st : AccState),
      (foldCheck env st ts).hasMouseMoved =
        (st.hasMouseMoved || seenType ts EventType.mousemove)
  | [], st => by simp [foldCheck, seenType]
  | t :: rest, st => by
      have hr := foldCheck_moved env rest (checkRealUserInteraction env t st).1
      simp only [foldCheck, List.foldl_cons] at hr ⊢
      rw [hr, check_moved]
      simp [seenType, Bool.or_assoc]

lemma foldCheck_clicked (env : EnvP) :
    ∀ (ts : List EventType) (st : AccState),
      (foldCheck env st ts).hasClicked =
        (st.hasClicked || seenType ts EventType.click)
  | [], st => by simp [foldCheck, seenType]
  | t :: rest, st => by
      have hr := foldCheck_clicked env rest (checkRealUserInteraction env t st).1
      simp only [foldCheck, List.foldl_cons] at hr ⊢
      rw [hr, check_clicked]
      simp [seenType, Bool.or_assoc]

/-- C5 (amended): starting from the fresh accumulator and feeding trusted
events, the confirmation fires on the current event exactly when — counting
that event — a movement event has been seen, a click has been seen or the
current event itself is a key press, and the event counter has reached
three.  A key press seen only earlier in the history does not satisfy the
action condition. -/
theorem confirmation_fires_iff (env : EnvP) (ts : List EventType)
    (t : EventType) :
    (checkRealUserInteraction env t (foldCheck env accInit ts)).2 =
      ((seenType ts EventType.mousemove || t == EventType.mousemove) &&
       ((seenType ts EventType.click || t == EventType.click) ||
         t == EventType.keydown) &&
       decide (ts.length + 1 ≥ 3)) := by
  rw [check_fired, foldCheck_count, foldCheck_moved, foldCheck_clicked]
  simp [accInit]

/-- Counterexample for C5 as stated: in the trusted sequence keydown,
mousemove, mousemove a movement event has been seen, a key press has been
seen, and the counter reaches three, yet no step fires the confirmation and
hasRealUser stays false — the key press counts only when it is the current
event. -/
theorem seen_keydown_not_sufficient :
    seenType [EventType.keydown, EventType.mousemove, EventType.mousemove]
        EventType.mousemove = true ∧
    seenType [EventType.keydown, EventType.mousemove, EventType.mousemove]
        EventType.keydown = true ∧
    [EventType.keydown, EventType.mousemove, EventType.mousemove].length ≥ 3 ∧
    anyFired benignEnvP accInit
      [EventType.keydown, EventType.mousemove, EventType.mousemove] = false ∧
    (foldCheck benignEnvP accInit
      [EventType.keydown, EventType.mousemove, EventType.mousemove]).hasRealUser
      = false := by
  decide

end Part001

namespace MathWorksheet

lemma performSubmit_calls (outcome : SubmitOutcome) (n : String)
    (s : AppState) :
    (performSubmit outcome n s).2 = [NetCall.postScores n s.userAnswers] := by
  rcases outcome with resp | err
  · rfl
  · simp only [performSubmit]
    split <;> rfl

lemma calculateScore_valid (env : Env) (outcome : SubmitOutcome)
    (s : AppState)
    (hsub : s.isSubmitting = false) (hq : s.quizStarted = true)
    (hb : isBot env = false) (hh : s.honeypot = "")
    (hr : s.hasRealUser = true) (hav : s.backendAvailable = true)
    (hn : jsTrim s.userName ≠ "")
    (hl2 : 2 ≤ (jsTrim s.userName).length)
    (hl50 : (jsTrim s.userName).length ≤ 50) :
    calculateScore env outcome s =
      if s.userAnswers.length < s.questions.length then
        ({ s with message :=
            completenessMessage s.questions.length s.userAnswers.length }, [])
      else performSubmit outcome (jsTrim s.userName) s := by
  have hlen : ¬((jsTrim s.userName).length < 2 ∨
      (jsTrim s.userName).length > 50) := by omega
  simp [calculateScore, hsub, hq, hb, hh, hr, hav, hn, hlen]

lemma total_digits_infix (total answered : Nat) :
    (toString total).data <:+: (completenessMessage total answered).data := by
  refine ⟨"Please answer all ".data,
    (" questions. You\u0027ve answered " ++ toString answered ++ ".").data, ?_⟩
  simp only [completenessMessage, String.data_append, List.append_assoc]

lemma answered_digits_infix (total answered : Nat) :
    (toString answered).data <:+: (completenessMessage total answered).data := by
  refine ⟨("Please answer all " ++ toString total ++
    " questions. You\u0027ve answered ").data, ".".data, ?_⟩
  simp only [completenessMessage, String.data_append, List.append_assoc]

/-- C6: in an activated session with a valid name, a submission with fewer
answers than questions is rejected before any network call with the message
citing both the total and the answered count (both digit strings occur in
the message); with the answered count equal to the total, validation passes
and the submission POST is issued. -/
theorem completeness_validation (env : Env) (outcome : SubmitOutcome)
    (s : AppState)
    (hsub : s.isSubmitting = false) (hq : s.quizStarted = true)
    (hb : isBot env = false) (hh : s.honeypot = "")
    (hr : s.hasRealUser = true) (hav : s.backendAvailable = true)
    (hn : jsTrim s.userName ≠ "")
    (hl2 : 2 ≤ (jsTrim s.userName).length)
    (hl50 : (jsTrim s.userName).length ≤ 50) :
    (s.userAnswers.length < s.questions.length →
      calculateScore env outcome s =
        ({ s with message :=
            completenessMessage s.questions.length s.userAnswers.length }, []) ∧
      (toString s.questions.length).data <:+:
        (completenessMessage s.questions.length s.userAnswers.length).data ∧
      (toString s.userAnswers.length).data <:+:
        (completenessMessage s.questions.length s.userAnswers.length).data) ∧
    (s.userAnswers.length = s.questions.length →
      (calculateScore env outcome s).2 =
        [NetCall.postScores (jsTrim s.userName) s.userAnswers]) := by
  have hv := calculateScore_valid env outcome s hsub hq hb hh hr hav hn hl2 hl50
  constructor
  · intro hlt
    exact ⟨by rw [hv, if_pos hlt],
      total_digits_infix _ _, answered_digits_infix _ _⟩
  · intro heq
    rw [hv, if_neg (by omega), performSubmit_calls]

/-- Witness for C6: twelve questions with seven answers yield the rejection
message citing 12 and 7 and no network call; with all twelve answered the
POST is issued. -/
theorem completeness_validation_witness :
    (calculateScore okEnv (SubmitOutcome.success respWithScores) submitReady7 =
      ({ submitReady7 with message := completenessMessage 12 7 }, [])) ∧
    (toString (12 : Nat)).data <:+: (completenessMessage 12 7).data ∧
    (toString (7 : Nat)).data <:+: (completenessMessage 12 7).data ∧
    (calculateScore okEnv (SubmitOutcome.success respWithScores)
        submitReady12).2 =
      [NetCall.postScores (jsTrim submitReady12.userName)
        submitReady12.userAnswers] := by
  have h7 := completeness_validation okEnv
    (SubmitOutcome.success respWithScores) submitReady7
    rfl rfl (by decide) rfl rfl rfl (by decide) (by decide) (by decide)
  have h12 := completeness_validation okEnv
    (SubmitOutcome.success respWithScores) submitReady12
    rfl rfl (by decide) rfl rfl rfl (by decide) (by decide) (by decide)
  have h7' := h7.1 (by decide)
  exact ⟨h7'.1, h7'.2.1, h7'.2.2, h12.2 (by decide)⟩

end MathWorksheet

namespace MathWorksheet

/-- Counterexample for C7 as stated: an activated one-question session whose
single answer value is the empty string passes every validation step and the
submission POST is issued carrying the empty value — no per-value emptiness
check exists in calculateScore. -/
theorem empty_answer_reaches_network :
    ("q1", "") ∈ emptyAnswerState.userAnswers ∧
    (calculateScore okEnv (SubmitOutcome.success respWithScores)
        emptyAnswerState).2 =
      [NetCall.postScores "Al" [("q1", "")]] := by
  constructor
  · decide
  · decide

/-- C7 (amended): the validator checks only the gate, backend availability,
the name, and the answered count; it performs no per-value emptiness check,
so a full-count answer map containing an empty-string value still reaches
the network step and the POST carries it. -/
theorem no_empty_value_check (env : Env) (outcome : SubmitOutcome)
    (s : AppState)
    (hsub : s.isSubmitting = false) (hq : s.quizStarted = true)
    (hb : isBot env = false) (hh : s.honeypot = "")
    (hr : s.hasRealUser = true) (hav : s.backendAvailable = true)
    (hn : jsTrim s.userName ≠ "")
    (hl2 : 2 ≤ (jsTrim s.userName).length)
    (hl50 : (jsTrim s.userName).length ≤ 50)
    (hcount : s.questions.length ≤ s.userAnswers.length)
    (q : String) (hempty : (q, "") ∈ s.userAnswers) :
    (calculateScore env outcome s).2 =
      [NetCall.postScores (jsTrim s.userName) s.userAnswers] := by
  rw [calculateScore_valid env outcome s hsub hq hb hh hr hav hn hl2 hl50,
    if_neg (by omega), performSubmit_calls]

/-- Witness for C7 (amended): the concrete one-question session with the
empty answer value submits. -/
theorem no_empty_value_check_witness :
    (calculateScore okEnv (SubmitOutcome.success respWithScores)
        emptyAnswerState).2 =
      [NetCall.postScores (jsTrim emptyAnswerState.userName)
        emptyAnswerState.userAnswers] :=
  no_empty_value_check okEnv (SubmitOutcome.success respWithScores)
    emptyAnswerState rfl rfl (by decide) rfl rfl rfl (by decide) (by decide)
    (by decide) (by decide) "q1" (by decide)

/-- C8: a submission network failure is classified in exactly two ways: a
timeout (ECONNABORTED) or an HTTP status of at least 500 sets
backendAvailable to false, sets criticalError, and shows the
backend-unavailable message; every other failure leaves both flags unchanged
and shows the transient try-again message. -/
theorem submit_failure_classification (env : Env) (s : AppState)
    (err : AxiosError)
    (hsub : s.isSubmitting = false) (hq : s.quizStarted = true)
    (hb : isBot env = false) (hh : s.honeypot = "")
    (hr : s.hasRealUser = true) (hav : s.backendAvailable = true)
    (hn : jsTrim s.userName ≠ "")
    (hl2 : 2 ≤ (jsTrim s.userName).length)
    (hl50 : (jsTrim s.userName).length ≤ 50)
    (hcount : s.questions.length ≤ s.userAnswers.length) :
    (isTimeoutOr5xx err = true →
      (calculateScore env (SubmitOutcome.failure err) s).1.backendAvailable
        = false ∧
      (calculateScore env (SubmitOutcome.failure err) s).1.criticalError
        = true ∧
      (calculateScore env (SubmitOutcome.failure err) s).1.message
        = backendUnavailableSubmitMsg) ∧
    (isTimeoutOr5xx err = false →
      (calculateScore env (SubmitOutcome.failure err) s).1.backendAvailable
        = s.backendAvailable ∧
      (calculateScore env (SubmitOutcome.failure err) s).1.criticalError
        = s.criticalError ∧
      (calculateScore env (SubmitOutcome.failure err) s).1.message
        = submitFailedMsg) := by
  have hv := calculateScore_valid env (SubmitOutcome.failure err) s
    hsub hq hb hh hr hav hn hl2 hl50
  rw [hv, if_neg (by omega)]
  constructor <;> intro hc <;> simp [performSubmit, hc]

/-- Witness for C8: a timeout on the complete session flips both flags and
shows the backend-unavailable message; a 404 flips nothing and shows the
try-again message. -/
theorem submit_failure_classification_witness :
    ((calculateScore okEnv (SubmitOutcome.failure errTimeout)
        submitReady12).1.backendAvailable = false ∧
      (calculateScore okEnv (SubmitOutcome.failure errTimeout)
        submitReady12).1.criticalError = true ∧
      (calculateScore okEnv (SubmitOutcome.failure errTimeout)
        submitReady12).1.message = backendUnavailableSubmitMsg) ∧
    ((calculateScore okEnv (SubmitOutcome.failure err404)
        submitReady12).1.backendAvailable = submitReady12.backendAvailable ∧
      (calculateScore okEnv (SubmitOutcome.failure err404)
        submitReady12).1.criticalError = submitReady12.criticalError ∧
      (calculateScore okEnv (SubmitOutcome.failure err404)
        submitReady12).1.message = submitFailedMsg) := by
  have ht := submit_failure_classification okEnv submitReady12 errTimeout
    rfl rfl (by decide) rfl rfl rfl (by decide) (by decide) (by decide)
    (by decide)
  have h4 := submit_failure_classification okEnv submitReady12 err404
    rfl rfl (by decide) rfl rfl rfl (by decide) (by decide) (by decide)
    (by decide)
  exact ⟨ht.1 (by decide), h4.2 (by decide)⟩

/-- C9: a successful submission issues exactly the one POST (no leaderboard
read); when the response embeds a highScores array the local leaderboard
becomes exactly that array, and when it does not the leaderboard is
unchanged; the name and the answer map are cleared. -/
theorem submit_success_updates (env : Env) (s : AppState)
    (resp : SubmitResponse)
    (hsub : s.isSubmitting = false) (hq : s.quizStarted = true)
    (hb : isBot env = false) (hh : s.honeypot = "")
    (hr : s.hasRealUser = true) (hav : s.backendAvailable = true)
    (hn : jsTrim s.userName ≠ "")
    (hl2 : 2 ≤ (jsTrim s.userName).length)
    (hl50 : (jsTrim s.userName).length ≤ 50)
    (hcount : s.questions.length ≤ s.userAnswers.length) :
    (calculateScore env (SubmitOutcome.success resp) s).2 =
      [NetCall.postScores (jsTrim s.userName) s.userAnswers] ∧
    (∀ hs, resp.highScores = some hs →
      (calculateScore env (SubmitOutcome.success resp) s).1.highScores = hs) ∧
    (resp.highScores = none →
      (calculateScore env (SubmitOutcome.success resp) s).1.highScores
        = s.highScores) ∧
    (calculateScore env (SubmitOutcome.success resp) s).1.userAnswers = [] ∧
    (calculateScore env (SubmitOutcome.success resp) s).1.userName = "" := by
  have hv := calculateScore_valid env (SubmitOutcome.success resp) s
    hsub hq hb hh hr hav hn hl2 hl50
  rw [hv, if_neg (by omega)]
  refine ⟨performSubmit_calls _ _ _, ?_, ?_, ?_, ?_⟩
  · intro hs hhs
    simp [performSubmit, hhs]
  · intro hhs
    simp [performSubmit, hhs]
  · rcases hhs : resp.highScores with _ | hs <;> simp [performSubmit, hhs]
  · rcases hhs : resp.highScores with _ | hs <;> simp [performSubmit, hhs]

/-- Witness for C9: the complete session submitting successfully with an
embedded leaderboard ends with exactly that leaderboard, one POST, and
cleared name and answers. -/
theorem submit_success_updates_witness :
    (calculateScore okEnv (SubmitOutcome.success respWithScores)
        submitReady12).2 =
      [NetCall.postScores (jsTrim submitReady12.userName)
        submitReady12.userAnswers] ∧
    (calculateScore okEnv (SubmitOutcome.success respWithScores)
        submitReady12).1.highScores =
      [{ name := "Alice", score := 11 }, { name := "Bob", score := 9 }] ∧
    (calculateScore okEnv (SubmitOutcome.success respWithScores)
        submitReady12).1.userAnswers = [] ∧
    (calculateScore okEnv (SubmitOutcome.success respWithScores)
        submitReady12).1.userName = "" := by
  have h := submit_success_updates okEnv submitReady12 respWithScores
    rfl rfl (by decide) rfl rfl rfl (by decide) (by decide) (by decide)
    (by decide)
  exact ⟨h.1, h.2.1 _ rfl, h.2.2.2.1, h.2.2.2.2⟩

/-- C10: every failed submission attempt — one rejected by validation (no
call issued) or one whose network outcome is a failure — leaves the answer
map, the user name, and the recorded score unchanged; those fields mutate
only on the success path. -/
theorem failed_submit_preserves_state (env : Env) (outcome : SubmitOutcome)
    (s : AppState)
    (h : (calculateScore env outcome s).2 = [] ∨
      ∃ e, outcome = SubmitOutcome.failure e) :
    (calculateScore env outcome s).1.userAnswers = s.userAnswers ∧
    (calculateScore env outcome s).1.userName = s.userName ∧
    (calculateScore env outcome s).1.score = s.score := by
  rcases h with hcalls | ⟨e, rfl⟩
  · unfold calculateScore at hcalls ⊢
    split_ifs at hcalls ⊢ <;> try simp
    rw [performSubmit_calls] at hcalls
    exact absurd hcalls (by simp)
  · unfold calculateScore
    split_ifs <;> try simp
    simp only [performSubmit]
    split <;> simp

/-- Witness for C10: a validation rejection (quiz never started) and a
network failure on the complete session both leave the three fields
untouched. -/
theorem failed_submit_preserves_state_witness :
    ((calculateScore okEnv (SubmitOutcome.success respWithScores)
        initialState).1.userAnswers = initialState.userAnswers ∧
      (calculateScore okEnv (SubmitOutcome.success respWithScores)
        initialState).1.userName = initialState.userName ∧
      (calculateScore okEnv (SubmitOutcome.success respWithScores)
        initialState).1.score = initialState.score) ∧
    ((calculateScore okEnv (SubmitOutcome.failure errTimeout)
        submitReady12).1.userAnswers = submitReady12.userAnswers ∧
      (calculateScore okEnv (SubmitOutcome.failure errTimeout)
        submitReady12).1.userName = submitReady12.userName ∧
      (calculateScore okEnv (SubmitOutcome.failure errTimeout)
        submitReady12).1.score = submitReady12.score) :=
  ⟨failed_submit_preserves_state okEnv
      (SubmitOutcome.success respWithScores) initialState (Or.inl rfl),
    failed_submit_preserves_state okEnv
      (SubmitOutcome.failure errTimeout) submitReady12
      (Or.inr ⟨errTimeout, rfl⟩)⟩

end MathWorksheet

namespace MathWorksheet

lemma loadInitialData_dataLoaded (env : Env) (now : Nat)
    (qOut : FetchOutcome (List Question))
    (sOut : FetchOutcome (List ScoreEntry)) (s : AppState)
    (h : s.dataLoaded = true) :
    loadInitialData env now qOut sOut s = (s, []) := by
  simp [loadInitialData, h]

lemma loadInitialData_rateLimited (env : Env) (now : Nat)
    (qOut : FetchOutcome (List Question))
    (sOut : FetchOutcome (List ScoreEntry)) (s : AppState)
    (h1 : s.dataLoaded = false) (h2 : s.isLoading = false)
    (h3 : s.quizStarted = true) (h4 : isBot env = false)
    (h5 : s.hasRealUser = true) (h6 : now - s.lastApiCall < 10000) :
    loadInitialData env now qOut sOut s = (s, []) := by
  simp [loadInitialData, h1, h2, h3, h4, h5, h6]

lemma refreshHighScores_issues (env : Env)
    (outcome : FetchOutcome (List ScoreEntry)) (s : AppState)
    (h3 : s.quizStarted = true) (h4 : isBot env = false)
    (h5 : s.hasRealUser = true) (hav : s.backendAvailable = true) :
    (refreshHighScores env outcome s).2 = [NetCall.getScores] := by
  rcases outcome with d | err
  · simp [refreshHighScores, h3, h4, h5, hav]
  · simp only [refreshHighScores, h3, h4, h5, hav]
    norm_num
    split <;> rfl

/-- Counterexample for C3 as stated: immediately after a session in which
the leaderboard payload was loaded, a manual leaderboard read issues a
network call, and a second read right after it — well inside any two-minute
window — issues another network call instead of returning the cached
payload: refreshHighScores consults no cache and no clock. -/
theorem refresh_within_ttl_issues_call :
    (refreshHighScores okEnv
        (FetchOutcome.success [{ name := "Alice", score := 5 }])
        loadedState).2 = [NetCall.getScores] ∧
    (refreshHighScores okEnv
        (FetchOutcome.success [{ name := "Alice", score := 5 }])
        (refreshHighScores okEnv
          (FetchOutcome.success [{ name := "Alice", score := 5 }])
          loadedState).1).2 = [NetCall.getScores] := by
  constructor
  · decide
  · decide

/-- C3 (amended): there is no TTL cache.  The initial load runs at most once
per session — once dataLoaded is set, loadInitialData issues no call at any
later time — and a repeat attempt within ten seconds of the last API call is
rate-limited; every manual leaderboard refresh that passes the gate issues a
fresh network call regardless of the age of the current payload. -/
theorem no_ttl_cache_behavior :
    (∀ (env : Env) (now : Nat) (qOut : FetchOutcome (List Question))
        (sOut : FetchOutcome (List ScoreEntry)) (s : AppState),
      s.dataLoaded = true → loadInitialData env now qOut sOut s = (s, [])) ∧
    (∀ (env : Env) (now : Nat) (qOut : FetchOutcome (List Question))
        (sOut : FetchOutcome (List ScoreEntry)) (s : AppState),
      s.dataLoaded = false → s.isLoading = false → s.quizStarted = true →
      isBot env = false → s.hasRealUser = true →
      now - s.lastApiCall < 10000 →
      loadInitialData env now qOut sOut s = (s, [])) ∧
    (∀ (env : Env) (outcome : FetchOutcome (List ScoreEntry)) (s : AppState),
      s.quizStarted = true → isBot env = false → s.hasRealUser = true →
      s.backendAvailable = true →
      (refreshHighScores env outcome s).2 = [NetCall.getScores]) :=
  ⟨fun env now qOut sOut s h =>
      loadInitialData_dataLoaded env now qOut sOut s h,
    fun env now qOut sOut s h1 h2 h3 h4 h5 h6 =>
      loadInitialData_rateLimited env now qOut sOut s h1 h2 h3 h4 h5 h6,
    fun env outcome s h3 h4 h5 hav =>
      refreshHighScores_issues env outcome s h3 h4 h5 hav⟩

/-- Witness for C3 (amended): on concrete states, the loaded session never
re-issues the initial load, a fresh session retried after one second is
rate-limited, and the manual refresh issues its GET. -/
theorem no_ttl_cache_behavior_witness :
    loadInitialData okEnv 300000 (FetchOutcome.success q12)
      (FetchOutcome.success []) loadedState = (loadedState, []) ∧
    loadInitialData okEnv 1000 (FetchOutcome.success q12)
      (FetchOutcome.success [])
      freshStarted = (freshStarted, []) ∧
    (refreshHighScores okEnv (FetchOutcome.success []) loadedState).2
      = [NetCall.getScores] :=
  ⟨no_ttl_cache_behavior.1 okEnv 300000 (FetchOutcome.success q12)
      (FetchOutcome.success []) loadedState rfl,
    no_ttl_cache_behavior.2.1 okEnv 1000 (FetchOutcome.success q12)
      (FetchOutcome.success []) freshStarted
      rfl rfl rfl (by decide) rfl (by decide),
    no_ttl_cache_behavior.2.2 okEnv (FetchOutcome.success []) loadedState
      rfl (by decide) rfl rfl⟩

/-- Counterexample for C4 as stated: from an available backend, a manual
leaderboard refresh that fails with a timeout sets backendAvailable to false
— a scores-fetch failure alone does flip the availability flag. -/
theorem refresh_timeout_flips_backend :
    loadedState.backendAvailable = true ∧
    loadedState.criticalError = false ∧
    (refreshHighScores okEnv (FetchOutcome.failure errTimeout)
        loadedState).1.backendAvailable = false := by
  refine ⟨rfl, rfl, ?_⟩
  decide

/-- C4 (amended): during the initial parallel load, a scores failure paired
with a questions success leaves backendAvailable true and criticalError
unchanged; a manual leaderboard refresh failure never sets criticalError,
but one classified as timeout or HTTP 500+ sets backendAvailable to false,
while any other refresh failure leaves it unchanged. -/
theorem leaderboard_failure_flag_policy :
    (∀ (env : Env) (now : Nat) (qd : List Question) (err : AxiosError)
        (s : AppState),
      s.dataLoaded = false → s.isLoading = false → s.quizStarted = true →
      isBot env = false → s.hasRealUser = true →
      ¬(now - s.lastApiCall < 10000) →
      (loadInitialData env now (FetchOutcome.success qd)
        (FetchOutcome.failure err) s).1.backendAvailable = true ∧
      (loadInitialData env now (FetchOutcome.success qd)
        (FetchOutcome.failure err) s).1.criticalError = s.criticalError) ∧
    (∀ (env : Env) (err : AxiosError) (s : AppState),
      s.quizStarted = true → isBot env = false → s.hasRealUser = true →
      s.backendAvailable = true →
      (refreshHighScores env (FetchOutcome.failure err) s).1.criticalError
        = s.criticalError ∧
      (isTimeoutOr5xx err = true →
        (refreshHighScores env (FetchOutcome.failure err) s).1.backendAvailable
          = false) ∧
      (isTimeoutOr5xx err = false →
        (refreshHighScores env (FetchOutcome.failure err) s).1.backendAvailable
          = s.backendAvailable)) := by
  constructor
  · intro env now qd err s h1 h2 h3 h4 h5 h6
    simp [loadInitialData, h1, h2, h3, h4, h5, h6]
  · intro env err s h3 h4 h5 hav
    refine ⟨?_, ?_, ?_⟩
    · simp only [refreshHighScores, h3, h4, h5, hav]
      norm_num
      split <;> rfl
    · intro hc
      simp [refreshHighScores, h3, h4, h5, hav, hc]
    · intro hc
      simp [refreshHighScores, h3, h4, h5, hav, hc]

/-- Witness for C4 (amended): concretely, the initial load with a failing
scores GET keeps the backend available with criticalError unchanged, and the
manual refresh failing with a timeout and with a 404 behave as classified,
never touching criticalError. -/
theorem leaderboard_failure_flag_policy_witness :
    ((loadInitialData okEnv 20000 (FetchOutcome.success q12)
        (FetchOutcome.failure errTimeout) freshStarted).1.backendAvailable
        = true ∧
      (loadInitialData okEnv 20000 (FetchOutcome.success q12)
        (FetchOutcome.failure errTimeout) freshStarted).1.criticalError
        = false) ∧
    ((refreshHighScores okEnv (FetchOutcome.failure errTimeout)
        loadedState).1.criticalError = loadedState.criticalError ∧
      (refreshHighScores okEnv (FetchOutcome.failure errTimeout)
        loadedState).1.backendAvailable = false) ∧
    ((refreshHighScores okEnv (FetchOutcome.failure err404)
        loadedState).1.criticalError = loadedState.criticalError ∧
      (refreshHighScores okEnv (FetchOutcome.failure err404)
        loadedState).1.backendAvailable = loadedState.backendAvailable) := by
  have hload := leaderboard_failure_flag_policy.1 okEnv 20000 q12 errTimeout
    freshStarted rfl rfl rfl (by decide) rfl (by decide)
  have hT := leaderboard_failure_flag_policy.2 okEnv errTimeout loadedState
    rfl (by decide) rfl rfl
  have h4 := leaderboard_failure_flag_policy.2 okEnv err404 loadedState
    rfl (by decide) rfl rfl
  exact ⟨hload, ⟨hT.1, hT.2.1 (by decide)⟩, ⟨h4.1, h4.2.2 (by decide)⟩⟩

end MathWorksheet
